import Mathlib

/-!
Verification of the hyperate-overlay core against its specification.

The repository ingests heart-rate samples from a socket channel and keeps
an in-memory rolling window, derived statistics, and a date-partitioned
CSV log.  Below, each Python function of the core is embedded as a Lean
definition over exact rational arithmetic (floats are idealised as
rationals, with Python rounding modelled as round-half-to-even), and the
specification claims are settled as theorems about those definitions.
-/

namespace HyperateOverlay

/-! ### Rounding helpers

Python round(x, d) rounds half to even.  We idealise float arithmetic
as exact rational arithmetic. -/

/-- Round a rational to the nearest integer, ties to even
(the behaviour of Python round on exact values). -/
def roundHalfEven (x : ℚ) : ℤ :=
  let f : ℤ := ⌊x⌋
  let r : ℚ := x - (f : ℚ)
  if 1/2 < r then f + 1
  else if r < 1/2 then f
  else if f % 2 = 0 then f else f + 1

/-- Model of Python round(x, d) for d decimal places. -/
def pyRound (x : ℚ) (d : ℕ) : ℚ :=
  ((roundHalfEven (x * 10 ^ d) : ℤ) : ℚ) / 10 ^ d

/-- Model of Python round(v ** 0.5, 2) for v ≥ 0: the square root of v
rounded to two decimal places, ties to even.  The integer part of
100·√v is Nat.sqrt of the floor of 10000·v; the fractional comparison
against one half is decided by comparing 40000·v with the square of
2·k + 1. -/
def pyRoundSqrt2 (v : ℚ) : ℚ :=
  let k : ℕ := Nat.sqrt (⌊(10000 : ℚ) * v⌋).toNat
  if (((2 * k + 1 : ℕ) : ℚ)) ^ 2 < 40000 * v then ((k + 1 : ℕ) : ℚ) / 100
  else if 40000 * v < (((2 * k + 1 : ℕ) : ℚ)) ^ 2 then (k : ℚ) / 100
  else if k % 2 = 0 then (k : ℚ) / 100 else ((k + 1 : ℕ) : ℚ) / 100

/-! ### Data model of stats_analyzer.HeartRateStats -/

/-- One entry of HeartRateStats.data_queue: a dict with keys
timestamp and heart_rate (the datetime string is derived and not
modelled).  Timestamps are seconds since the epoch, idealised as
rationals; heart rates are integers. -/
structure DataPoint where
  timestamp : ℚ
  heart_rate : ℤ
deriving DecidableEq

/-- The ranges dict built in HeartRateStats.calculate_stats. -/
structure Ranges where
  very_low : ℕ
  low : ℕ
  normal : ℕ
  elevated : ℕ
  high : ℕ
deriving DecidableEq

/-- The stats dict returned by HeartRateStats.calculate_stats for a
non-empty input (the empty input returns an empty dict, modelled as
Option.none in calculate_stats below).  trend_slope and trend are
present only when the input has at least ten points, hence Option. -/
structure Stats where
  count : ℕ
  min : ℤ
  max : ℤ
  avg : ℚ
  median : ℤ
  std_dev : ℚ
  duration_seconds : ℚ
  duration_minutes : ℚ
  ranges : Ranges
  trend_slope : Option ℚ
  trend : Option String
deriving DecidableEq

/-- Embedding of HeartRateStats._calculate_slope: least-squares slope of
y against x.  All sums are integer arithmetic as in the source; the
final division is the float division, idealised in ℚ. -/
def calculate_slope (x y : List ℤ) : ℚ :=
  let n : ℤ := x.length
  let sum_x : ℤ := x.sum
  let sum_y : ℤ := y.sum
  let sum_xy : ℤ := (List.zipWith (· * ·) x y).sum
  let sum_x2 : ℤ := (x.map (fun xi => xi ^ 2)).sum
  let denominator : ℤ := n * sum_x2 - sum_x ^ 2
  if denominator = 0 then 0
  else ((n * sum_xy - sum_x * sum_y : ℤ) : ℚ) / ((denominator : ℤ) : ℚ)

/-- Embedding of HeartRateStats._interpret_trend.  The float literals
0.5 and 0.1 of the source are the rationals 1/2 and 1/10. -/
def interpret_trend (slope : ℚ) : String :=
  if slope > 1/2 then "上升中"
  else if slope < -(1/2) then "下降中"
  else if slope > 1/10 then "缓慢上升"
  else if slope < -(1/10) then "缓慢下降"
  else "稳定"

/-- Embedding of Python sorted on a list of integers (ascending). -/
def pySorted (l : List ℤ) : List ℤ :=
  List.insertionSort (· ≤ ·) l

/-- Embedding of HeartRateStats.calculate_stats.  Returns none for the
empty input (the source returns an empty dict), otherwise the stats
record, field by field as computed in the source. -/
def calculate_stats (data_points : List DataPoint) : Option Stats :=
  match data_points with
  | [] => none
  | p :: ps =>
    let pts := p :: ps
    let heart_rates : List ℤ := pts.map DataPoint.heart_rate
    let timestamps : List ℚ := pts.map DataPoint.timestamp
    let cnt : ℕ := heart_rates.length
    let mn : ℤ := (heart_rates.tail).foldl Min.min (heart_rates.headD 0)
    let mx : ℤ := (heart_rates.tail).foldl Max.max (heart_rates.headD 0)
    let avg : ℚ := pyRound ((heart_rates.sum : ℚ) / (cnt : ℚ)) 1
    let median : ℤ := (pySorted heart_rates).getD (cnt / 2) 0
    let std_dev : ℚ :=
      if 1 < cnt then
        pyRoundSqrt2
          (((heart_rates.map (fun hr => ((hr : ℚ) - avg) ^ 2)).sum) /
            ((cnt : ℚ) - 1))
      else 0
    let tmin : ℚ := (timestamps.tail).foldl Min.min (timestamps.headD 0)
    let tmax : ℚ := (timestamps.tail).foldl Max.max (timestamps.headD 0)
    let time_span : ℚ := tmax - tmin
    let ranges : Ranges :=
      { very_low := (heart_rates.filter (fun hr => decide (hr < 50))).length
        low := (heart_rates.filter (fun hr => decide (50 ≤ hr ∧ hr < 60))).length
        normal := (heart_rates.filter (fun hr => decide (60 ≤ hr ∧ hr < 100))).length
        elevated := (heart_rates.filter (fun hr => decide (100 ≤ hr ∧ hr < 140))).length
        high := (heart_rates.filter (fun hr => decide (140 ≤ hr))).length }
    let recent_data : List ℤ := heart_rates.drop (cnt - 10)
    let slope : ℚ := calculate_slope
      ((List.range recent_data.length).map (fun i => (i : ℤ))) recent_data
    let trend_slope : Option ℚ :=
      if 10 ≤ cnt then some (pyRound slope 3) else none
    let trend : Option String :=
      if 10 ≤ cnt then some (interpret_trend slope) else none
    some
      { count := cnt
        min := mn
        max := mx
        avg := avg
        median := median
        std_dev := std_dev
        duration_seconds := time_span
        duration_minutes := pyRound (time_span / 60) 1
        ranges := ranges
        trend_slope := trend_slope
        trend := trend }

/-! ### Claim-side definitions for the statistics claims -/

/-- Sample variance as worded in the specification claim: sum of squared
deviations from the (exact) mean divided by n - 1. -/
def specSampleVariance (heart_rates : List ℤ) : ℚ :=
  let m : ℚ := (heart_rates.sum : ℚ) / (heart_rates.length : ℚ)
  ((heart_rates.map (fun hr => ((hr : ℚ) - m) ^ 2)).sum) /
    ((heart_rates.length : ℚ) - 1)

/-- Standard deviation as worded in the amended claim: the square root,
rounded to two decimal places, of the sum of squared deviations from the
mean rounded to one decimal place, divided by n - 1; zero when the count
is one. -/
def std_devAmended (heart_rates : List ℤ) : ℚ :=
  let cnt : ℕ := heart_rates.length
  let avg : ℚ := pyRound ((heart_rates.sum : ℚ) / (cnt : ℚ)) 1
  if 1 < cnt then
    pyRoundSqrt2
      (((heart_rates.map (fun hr => ((hr : ℚ) - avg) ^ 2)).sum) /
        ((cnt : ℚ) - 1))
  else 0

/-! ### Concrete inputs used by the example-based claims -/

/-- Heart-rate samples with values 50, 55, 65, 105, 145. -/
def pts5 : List DataPoint :=
  [⟨0, 50⟩, ⟨1, 55⟩, ⟨2, 65⟩, ⟨3, 105⟩, ⟨4, 145⟩]

/-- Heart-rate samples with values 60, 62, ..., 78 (ten points). -/
def pts10 : List DataPoint :=
  [⟨0, 60⟩, ⟨1, 62⟩, ⟨2, 64⟩, ⟨3, 66⟩, ⟨4, 68⟩,
   ⟨5, 70⟩, ⟨6, 72⟩, ⟨7, 74⟩, ⟨8, 76⟩, ⟨9, 78⟩]

/-- Heart-rate samples with values 60, 60, 62. -/
def pts3 : List DataPoint := [⟨0, 60⟩, ⟨1, 60⟩, ⟨2, 62⟩]

/-- Four samples, used as concrete input for the median claim. -/
def pts4 : List DataPoint := [⟨0, 3⟩, ⟨1, 1⟩, ⟨2, 2⟩, ⟨3, 4⟩]

/-! ### Rolling window (collections.deque with maxlen)

HeartRateStats.data_queue is a collections.deque with
maxlen = max_memory_size.  The deque library guarantees: an append on a
full bounded deque first discards the item at the opposite end. -/

/-- One bounded-deque append: the new element goes to the right and the
list is trimmed on the left down to the capacity cap. -/
def dequePush (cap : ℕ) (l : List α) (x : α) : List α :=
  (l ++ [x]).drop (l.length + 1 - cap)

/-- All elements of xs appended in order into an initially empty bounded
deque of capacity cap. -/
def windowFold (cap : ℕ) (xs : List α) : List α :=
  xs.foldl (dequePush cap) []

/-! ### Durable logger (HeartRateStats file handling)

The local calendar date of a timestamp is computed by the external
datetime library; a timestamp is therefore modelled as its float seconds
value together with the date string that datetime.fromtimestamp would
format for it.  A file is a list of written records; the header line and
a data line are the two record shapes the source writes. -/

/-- Timestamp together with its local calendar date string
(datetime.fromtimestamp(ts).strftime of "%Y-%m-%d"). -/
structure PyTime where
  sec : ℚ
  date : String
deriving DecidableEq

/-- One line written to a log file: either the CSV header line
written by _init_log_file, or one formatted data line
(timestamp, heart_rate, iso datetime, readable time). -/
inductive Row where
  | header : Row
  | data (hr : ℤ) (ts : PyTime) : Row
deriving DecidableEq

/-- State of a HeartRateStats instance: the bounded in-memory queue and
the logger state (current date, open handle, and the files of the data
directory, each a name paired with its written lines). -/
structure HeartRateStatsState where
  max_memory_size : ℕ
  data_queue : List DataPoint
  current_date : Option String
  file_handle : Option String
  files : List (String × List Row)
deriving DecidableEq

/-- Embedding of HeartRateStats._get_log_filename (the directory prefix
is constant and omitted). -/
def get_log_filename (date : String) : String :=
  "heart_rate_" ++ date ++ ".csv"

/-- Opening a file for append creates it empty when absent. -/
def fsOpenAppend (fname : String) (files : List (String × List Row)) :
    List (String × List Row) :=
  if (files.lookup fname).isSome then files else files ++ [(fname, [])]

/-- Appending one record to the named file. -/
def fsWrite (fname : String) (r : Row) (files : List (String × List Row)) :
    List (String × List Row) :=
  files.map (fun p => if p.1 = fname then (p.1, p.2 ++ [r]) else p)

/-- Embedding of HeartRateStats._init_log_file, run with today as the
current local date: on a date change it opens the file for the date in
append mode and writes the CSV header if the file did not exist. -/
def init_log_file (today : String) (s : HeartRateStatsState) :
    HeartRateStatsState :=
  if s.current_date ≠ some today then
    let fname := get_log_filename today
    let file_exists := (s.files.lookup fname).isSome
    let files1 := fsOpenAppend fname s.files
    let files2 := if file_exists then files1 else fsWrite fname Row.header files1
    { s with current_date := some today, file_handle := some fname,
             files := files2 }
  else s

/-- Embedding of HeartRateStats._ensure_correct_log_file: when the date
of the incoming timestamp differs from the current one, the handle is
switched to the file of that date, opened in append mode.  No header is
written on this path. -/
def ensure_correct_log_file (ts : PyTime) (s : HeartRateStatsState) :
    HeartRateStatsState :=
  if some ts.date ≠ s.current_date then
    let fname := get_log_filename ts.date
    { s with current_date := some ts.date, file_handle := some fname,
             files := fsOpenAppend fname s.files }
  else s

/-- Embedding of HeartRateStats.add_heart_rate: ensure the correct log
file, append the data point to the bounded in-memory queue, and write
one data line to the open handle. -/
def add_heart_rate (heart_rate : ℤ) (ts : PyTime) (s : HeartRateStatsState) :
    HeartRateStatsState :=
  let s1 := ensure_correct_log_file ts s
  let s2 := { s1 with
    data_queue := dequePush s1.max_memory_size s1.data_queue
      ⟨ts.sec, heart_rate⟩ }
  match s2.file_handle with
  | some fname => { s2 with files := fsWrite fname (Row.data heart_rate ts) s2.files }
  | none => s2

/-- A fresh HeartRateStats instance constructed on the given local date:
empty queue, no files, then _init_log_file. -/
def newHeartRateStats (cap : ℕ) (today : String) : HeartRateStatsState :=
  init_log_file today
    { max_memory_size := cap, data_queue := [], current_date := none,
      file_handle := none, files := [] }

/-- Folding a list of samples through add_heart_rate. -/
def addAll (samples : List (ℤ × PyTime)) (s : HeartRateStatsState) :
    HeartRateStatsState :=
  samples.foldl (fun st p => add_heart_rate p.1 p.2 st) s

/-- Three timestamped samples on one day, used as concrete input for the
window claim. -/
def samples3 : List (ℤ × PyTime) :=
  [(60, ⟨0, "2025-01-01"⟩), (61, ⟨1, "2025-01-01"⟩), (62, ⟨2, "2025-01-01"⟩)]

/-! ### Channel session (websocket_client.WebSocketClient)

The streaming control flow of websocket_handler and send_heartbeat.
The flag ws_connected is the Streaming indicator of the source; the
heartbeat loop runs until it is cleared or a send fails. -/

/-- The two flags governing a running session: ws_connected (set inside
websocket_handler while the connection is open, i.e. Streaming) and
whether the heartbeat loop of send_heartbeat is still running. -/
structure SessionFlags where
  ws_connected : Bool
  heartbeatRunning : Bool
deriving DecidableEq

/-- Effect of a failing websocket.send inside send_heartbeat: the
exception is caught, a message is printed, and the loop breaks.  Nothing
else changes; in particular ws_connected keeps its value and the
receive loop of websocket_handler is unaffected. -/
def heartbeatSendFailure (s : SessionFlags) : SessionFlags :=
  { s with heartbeatRunning := false }

/-- Effect of the receive loop of websocket_handler terminating (socket
close or error): the finally block cancels the heartbeat task and
clears ws_connected. -/
def recvLoopExit (_s : SessionFlags) : SessionFlags :=
  { ws_connected := false, heartbeatRunning := false }

/-! ### Inbound frame handling (websocket_handler and
main.HyperateTripleOverlay.update_heart_rate_callback)

A JSON value found at payload.hr is either a number, a string that
int() accepts, some other string, or a value of another type (on which
int() raises TypeError rather than ValueError). -/

/-- The value at payload.hr of a parsed inbound frame. -/
inductive HrField where
  | num (n : ℤ)
  | numStr (n : ℤ)
  | strVal (s : String)
  | nullVal
deriving DecidableEq

/-- The two Python exceptions int() can raise on such a value. -/
inductive PyExc where
  | valueError
  | typeError
deriving DecidableEq

/-- Model of Python int(heart_rate): numbers and numeric strings
convert, other strings raise ValueError, other types raise TypeError. -/
def pyToInt : HrField → Except PyExc ℤ
  | .num n => .ok n
  | .numStr n => .ok n
  | .strVal _ => .error .valueError
  | .nullVal => .error .typeError

/-- Observable consumer-side state: the heart rates recorded through
stats_analyzer.add_heart_rate (aggregator and durable log), and the raw
values handed to the UI consumer callback (the dispatcher fan-out). -/
structure AppState where
  recorded : List ℤ
  dispatched : List HrField
deriving DecidableEq

/-- Embedding of main.HyperateTripleOverlay.update_heart_rate_callback
with the default display mode: int() conversion feeding the stats
analyzer, where ValueError is swallowed but any other exception
propagates, followed by the unconditional UI update with the raw
value. -/
def update_heart_rate_callback (app : AppState) (heart_rate : HrField) :
    Except PyExc AppState :=
  match pyToInt heart_rate with
  | .ok n =>
      .ok { recorded := app.recorded ++ [n],
            dispatched := app.dispatched ++ [heart_rate] }
  | .error .valueError =>
      .ok { app with dispatched := app.dispatched ++ [heart_rate] }
  | .error .typeError => .error .typeError

/-- Shape of the value found at the payload key of a parsed JSON dict,
as distinguished by the test hr in data of payload followed by the
subscript data of payload at hr in websocket_handler:
dictWithHr — a dict with key hr, whose value is looked up and passed on;
dictNoHr — a dict without that key, so the condition is false (silent);
strOrListWithHr — a string containing hr as a substring, or a list
containing the string hr: the membership test succeeds but the
subsequent subscript with a string raises TypeError (printed error);
strOrListNoHr — a string or list on which the membership test runs and
is false (silent);
scalar — a number, boolean or null, on which the membership test itself
raises TypeError (printed error). -/
inductive PayloadVal where
  | dictWithHr (hr : HrField)
  | dictNoHr
  | strOrListWithHr
  | strOrListNoHr
  | scalar
deriving DecidableEq

/-- Shape of a parsed top-level JSON value, as distinguished by the test
payload in data followed by the subscript data at payload:
dictWithPayload — a dict with key payload, carrying that value;
dictNoPayload — a dict without the key, condition false (silent);
strOrListWithPayload — a string containing payload as a substring or a
list containing the string payload: the membership test succeeds but the
subscript with a string raises TypeError (printed error);
strOrListNoPayload — a string or list on which the membership test is
false (silent);
scalar — a number, boolean or null, on which the membership test itself
raises TypeError (printed error). -/
inductive JsonTop where
  | dictWithPayload (p : PayloadVal)
  | dictNoPayload
  | strOrListWithPayload
  | strOrListNoPayload
  | scalar
deriving DecidableEq

/-- One inbound frame as seen by the receive loop: either text that
json.loads rejects, or a parsed JSON value of one of the shapes
above. -/
inductive Frame where
  | nonJson
  | json (v : JsonTop)
deriving DecidableEq

/-- Result of handling one inbound frame: the consumer state, whether a
processing error was printed, and whether the session keeps
streaming. -/
structure FrameOutcome where
  app : AppState
  printedError : Bool
  streamingContinues : Bool
deriving DecidableEq

/-- Embedding of the message branch of websocket_handler: a JSON decode
error is passed over silently; a parsed frame on which the membership
tests run and find no payload.hr is ignored silently; a parsed frame
whose shape makes a membership test or a subscript raise TypeError is
caught by the catch-all handler, which prints a processing error; a
payload.hr value reaching the condition body invokes the callback,
whose own exceptions are printed and swallowed likewise.  The receive
loop continues in every case. -/
def handleFrame (app : AppState) (f : Frame) : FrameOutcome :=
  match f with
  | .nonJson => ⟨app, false, true⟩
  | .json .scalar => ⟨app, true, true⟩
  | .json .strOrListWithPayload => ⟨app, true, true⟩
  | .json .strOrListNoPayload => ⟨app, false, true⟩
  | .json .dictNoPayload => ⟨app, false, true⟩
  | .json (.dictWithPayload .scalar) => ⟨app, true, true⟩
  | .json (.dictWithPayload .strOrListWithHr) => ⟨app, true, true⟩
  | .json (.dictWithPayload .strOrListNoHr) => ⟨app, false, true⟩
  | .json (.dictWithPayload .dictNoHr) => ⟨app, false, true⟩
  | .json (.dictWithPayload (.dictWithHr h)) =>
      match update_heart_rate_callback app h with
      | .ok a' => ⟨a', false, true⟩
      | .error _ => ⟨app, true, true⟩

/-! ### Channel identity (config.extract_channel_id)

Python string operations over lists of characters: str.split with a
non-empty separator splits at each non-overlapping occurrence from the
left, and the in operator tests substring containment. -/

/-- Does sep occur at the head of xs (str.startswith)? -/
def matchesAt : List Char → List Char → Bool
  | [], _ => true
  | _ :: _, [] => false
  | a :: as, b :: bs => a == b && matchesAt as bs

/-- Split at the first occurrence of sep: the text before it and the
text after it, or none when sep does not occur. -/
def splitFirstAux (sep : List Char) : List Char → Option (List Char × List Char)
  | [] => none
  | x :: xs =>
      if matchesAt sep (x :: xs) then some ([], (x :: xs).drop sep.length)
      else (splitFirstAux sep xs).map (fun p => (x :: p.1, p.2))

/-- Python sep in s (substring containment, sep non-empty). -/
def containsSeq (sep xs : List Char) : Bool :=
  (splitFirstAux sep xs).isSome

/-- Python s.split(sep)[0]: the text before the first occurrence of sep,
or all of s when sep does not occur. -/
def pySplitHead (sep xs : List Char) : List Char :=
  match splitFirstAux sep xs with
  | none => xs
  | some p => p.1

/-- The conditional truncation of the source: if sep in s, replace s by
s.split(sep)[0]. -/
def pyTruncAt (sep xs : List Char) : List Char :=
  if containsSeq sep xs then pySplitHead sep xs else xs

/-- Python s.split(sep)[1] in the case sep occurs in s: the text strictly
between the first occurrence and the following occurrence of sep (to the
end of the string when there is no second occurrence). -/
def pySplitSnd (sep xs : List Char) : List Char :=
  match splitFirstAux sep xs with
  | none => []
  | some p =>
      match splitFirstAux sep p.2 with
      | none => p.2
      | some q => q.1

/-- The three characters the source searches for. -/
def idMarker : List Char := "id=".toList

/-- Embedding of config.extract_channel_id: if the substring id= occurs
in the URL, take url.split on id= at index one, then truncate at an
ampersand and at a hash sign when present; otherwise return the fixed
fallback identifier. -/
def extract_channel_id (url : List Char) : List Char :=
  if containsSeq idMarker url then
    pyTruncAt ['#'] (pyTruncAt ['&'] (pySplitSnd idMarker url))
  else "internal-testing".toList

/-- Claim-side predicate: does the URL carry a query parameter named id,
i.e. a parameter segment id=... at the start of the query string or
right after an ampersand? -/
def hasIdParamSpec (url : List Char) : Bool :=
  let query := match splitFirstAux ['?'] url with
    | none => []
    | some p => p.2
  matchesAt idMarker query || containsSeq ('&' :: idMarker) query

/-- Channel identifier as worded in the amended claim: when the three
characters id= occur anywhere in the URL, the text between the first
occurrence and the next one, truncated at the first ampersand and then
at the first hash sign; otherwise the fixed fallback identifier. -/
def specAmendedChannelId (url : List Char) : List Char :=
  if idMarker <:+: url then
    ((pySplitSnd idMarker url).takeWhile (fun c => c != '&')).takeWhile
      (fun c => c != '#')
  else "internal-testing".toList

/-! ## Helper lemmas -/

/-- Folding appends into an empty bounded deque keeps exactly the last
cap elements. -/
theorem windowFold_eq_drop (cap : ℕ) (xs : List α) :
    windowFold cap xs = xs.drop (xs.length - cap) := by
  induction xs using List.reverseRecOn with
  | nil => simp [windowFold]
  | append_singleton ys x ih =>
    have hstep : windowFold cap (ys ++ [x])
        = dequePush cap (windowFold cap ys) x := by
      simp [windowFold, List.foldl_append]
    rw [hstep, ih, dequePush, List.length_drop, List.drop_append_eq_append_drop,
      List.drop_drop, List.drop_append_eq_append_drop, List.length_append,
      List.length_drop]
    congr 2 <;> simp <;> omega

/-- Length of a fold of appends into an empty bounded deque. -/
theorem windowFold_length (cap : ℕ) (xs : List α) :
    (windowFold cap xs).length = Min.min xs.length cap := by
  rw [windowFold_eq_drop, List.length_drop]
  omega

/-- add_heart_rate changes the in-memory queue by one bounded-deque
append and preserves the capacity. -/
theorem add_heart_rate_queue (hr : ℤ) (ts : PyTime) (s : HeartRateStatsState) :
    (add_heart_rate hr ts s).data_queue
        = dequePush s.max_memory_size s.data_queue ⟨ts.sec, hr⟩ ∧
    (add_heart_rate hr ts s).max_memory_size = s.max_memory_size := by
  unfold add_heart_rate ensure_correct_log_file
  by_cases h : some ts.date ≠ s.current_date
  · simp only [if_pos h]; exact ⟨trivial, trivial⟩
  · simp only [if_neg h]
    cases hf : s.file_handle <;> simp [hf]

/-- Folding samples through add_heart_rate folds their data points
through the bounded deque. -/
theorem addAll_queue (samples : List (ℤ × PyTime)) (s : HeartRateStatsState) :
    (addAll samples s).data_queue
        = (samples.map (fun p => (⟨p.2.sec, p.1⟩ : DataPoint))).foldl
            (dequePush s.max_memory_size) s.data_queue ∧
    (addAll samples s).max_memory_size = s.max_memory_size := by
  induction samples generalizing s with
  | nil => exact ⟨rfl, rfl⟩
  | cons p ps ih =>
    have h1 := add_heart_rate_queue p.1 p.2 s
    have h2 := ih (add_heart_rate p.1 p.2 s)
    constructor
    · show (addAll ps (add_heart_rate p.1 p.2 s)).data_queue = _
      rw [h2.1, h1.1, h1.2]
      rfl
    · show (addAll ps (add_heart_rate p.1 p.2 s)).max_memory_size = _
      rw [h2.2, h1.2]

/-! ## Claim theorems -/

/-- C4: for every sequence of more than C sample insertions into a fresh
window of capacity C, the window afterwards holds exactly the last C
inserted samples in arrival order, its length is C, and at every
intermediate point the length never exceeds C. -/
theorem c4_window_fifo (cap : ℕ) (d0 : String) (samples : List (ℤ × PyTime))
    (h : cap < samples.length) :
    (addAll samples (newHeartRateStats cap d0)).data_queue
        = (samples.map (fun p => (⟨p.2.sec, p.1⟩ : DataPoint))).drop
            (samples.length - cap) ∧
    (addAll samples (newHeartRateStats cap d0)).data_queue.length = cap ∧
    (∀ n, (addAll (samples.take n) (newHeartRateStats cap d0)).data_queue.length
        ≤ cap) := by
  have hq : (newHeartRateStats cap d0).data_queue = [] := rfl
  have hm : (newHeartRateStats cap d0).max_memory_size = cap := rfl
  have key : ∀ l : List (ℤ × PyTime),
      (addAll l (newHeartRateStats cap d0)).data_queue
        = windowFold cap (l.map (fun p => (⟨p.2.sec, p.1⟩ : DataPoint))) := by
    intro l
    rw [(addAll_queue l (newHeartRateStats cap d0)).1, hq, hm, windowFold]
  refine ⟨?_, ?_, ?_⟩
  · rw [key, windowFold_eq_drop, List.length_map]
  · rw [key, windowFold_length, List.length_map]
    omega
  · intro n
    rw [key, windowFold_length]
    omega

/-- Witness for C4 at capacity two and three insertions. -/
theorem c4_window_fifo_witness :
    (2 : ℕ) < samples3.length ∧
    ((addAll samples3 (newHeartRateStats 2 "2025-01-01")).data_queue
        = (samples3.map (fun p => (⟨p.2.sec, p.1⟩ : DataPoint))).drop
            (samples3.length - 2) ∧
    (addAll samples3 (newHeartRateStats 2 "2025-01-01")).data_queue.length = 2 ∧
    (∀ n, (addAll (samples3.take n)
        (newHeartRateStats 2 "2025-01-01")).data_queue.length ≤ 2)) :=
  ⟨by decide, c4_window_fifo 2 "2025-01-01" samples3 (by decide)⟩

/-- C1 counterexample: on the values 50, 55, 65, 105, 145 the computed
buckets are zero, two, one, one, one — not one in each bucket as the
claim states, since 50 falls in the 50 to 59 bucket and not below 50. -/
theorem c1_counterexample :
    (calculate_stats pts5).map Stats.ranges
        = some { very_low := 0, low := 2, normal := 1, elevated := 1, high := 1 } ∧
    ({ very_low := 0, low := 2, normal := 1, elevated := 1, high := 1 } : Ranges)
        ≠ { very_low := 1, low := 1, normal := 1, elevated := 1, high := 1 } :=
  ⟨rfl, by decide⟩

/-- C1 amended: for the input values 50, 55, 65, 105, 145 the five fixed
BPM-range buckets of the stats operation yield the counts very_low zero,
low two, normal one, elevated one, high one. -/
theorem c1_ranges_amended :
    (calculate_stats pts5).map Stats.ranges
        = some { very_low := 0, low := 2, normal := 1, elevated := 1, high := 1 } :=
  rfl

/-- C5: on the ten values 60, 62, ..., 78 the stats operation computes
trend slope exactly two and the rising label (the branch taken when the
slope exceeds one half). -/
theorem c5_trend_rising :
    (calculate_stats pts10).map (fun s => (s.trend_slope, s.trend))
      = some (some 2, some "上升中") ∧ ((2 : ℚ) > 1/2) := by
  constructor
  · have h1 : calculate_slope ((List.range (10:ℕ)).map (fun i => (i : ℤ)))
        [60, 62, 64, 66, 68, 70, 72, 74, 76, 78] = 2 := by
      unfold calculate_slope
      norm_num [List.zipWith, List.range, List.range.loop, List.sum_cons]
    have h2 : (calculate_stats pts10).map (fun s => (s.trend_slope, s.trend))
        = some (some (pyRound (calculate_slope
              ((List.range (10:ℕ)).map (fun i => (i : ℤ)))
              [60, 62, 64, 66, 68, 70, 72, 74, 76, 78]) 3),
            some (interpret_trend (calculate_slope
              ((List.range (10:ℕ)).map (fun i => (i : ℤ)))
              [60, 62, 64, 66, 68, 70, 72, 74, 76, 78]))) := rfl
    rw [h2, h1]
    unfold pyRound roundHalfEven interpret_trend
    norm_num
  · norm_num

/-- C7: the stats operation returns an absent result on the empty list;
on a single sample it returns standard deviation zero and no trend
fields. -/
theorem c7_empty_single :
    calculate_stats [] = none ∧
    ∀ ts hr, (calculate_stats [⟨ts, hr⟩]).map Stats.std_dev = some 0 ∧
      (calculate_stats [⟨ts, hr⟩]).map Stats.trend = some none ∧
      (calculate_stats [⟨ts, hr⟩]).map Stats.trend_slope = some none :=
  ⟨rfl, fun _ _ => ⟨rfl, rfl, rfl⟩⟩

/-- C6 counterexample: on the values 60, 60, 62 the stored standard
deviation is 1.16, whose square 1.3456 differs from the sample variance
4/3 about the exact mean, so the stored value is not the square root of
the claimed sample variance (the source measures deviations from the
mean rounded to one decimal and rounds the root to two decimals). -/
theorem c6_counterexample :
    (calculate_stats pts3).map Stats.std_dev = some (29/25 : ℚ) ∧
    ((29 : ℚ)/25) ^ 2 ≠ specSampleVariance [60, 60, 62] := by
  constructor
  · have havg : pyRound ((182:ℚ)/3) 1 = 607/10 := by
      unfold pyRound roundHalfEven
      have h1 : ((182:ℚ)/3 * 10 ^ (1:ℕ)) = 1820/3 := by norm_num
      have h2 : (⌊(1820:ℚ)/3⌋ : ℤ) = 606 := by
        rw [Int.floor_eq_iff]; constructor <;> norm_num
      simp only [h1, h2]
      norm_num
    have hv : pyRoundSqrt2 (267/200) = 29/25 := by
      have h1 : (⌊(10000 : ℚ) * (267/200 : ℚ)⌋).toNat = 13350 := by
        rw [show ((10000:ℚ) * (267/200 : ℚ)) = ((13350:ℤ):ℚ) by norm_num]
        simp
      have h2 : Nat.sqrt 13350 = 115 := by norm_num
      unfold pyRoundSqrt2
      simp only [h1, h2]
      norm_num
    simp only [pts3, calculate_stats, List.map_cons, List.map_nil, List.sum_cons,
      List.sum_nil, List.length_cons, List.length_nil, Option.map_some']
    norm_num [havg, hv]
  · unfold specSampleVariance
    norm_num

/-- C6 amended: for every non-empty input, the stored standard deviation
equals, for count above one, the two-decimal rounding of the square root
of the sum of squared deviations from the one-decimal-rounded mean
divided by n minus one, and zero for count one. -/
theorem c6_std_dev_amended :
    ∀ p ps, (calculate_stats (p :: ps)).map Stats.std_dev
      = some (std_devAmended ((p :: ps).map DataPoint.heart_rate)) :=
  fun _ _ => rfl

/-- C10: for every non-empty input, the median is the element at index
half the length (rounded down) of the values sorted ascending; the sort
is an ascending permutation of the values, and for even lengths the
median is the greater of the two middle elements. -/
theorem c10_median (pts : List DataPoint) (hne : pts ≠ []) :
    ∃ s, calculate_stats pts = some s ∧
      s.median = (pySorted (pts.map DataPoint.heart_rate)).getD (pts.length / 2) 0 ∧
      (pySorted (pts.map DataPoint.heart_rate)).Sorted (· ≤ ·) ∧
      (pySorted (pts.map DataPoint.heart_rate)).Perm (pts.map DataPoint.heart_rate) ∧
      (∀ k, pts.length = 2 * k → 1 ≤ k →
        s.median = Max.max ((pySorted (pts.map DataPoint.heart_rate)).getD (k - 1) 0)
                           ((pySorted (pts.map DataPoint.heart_rate)).getD k 0)) := by
  cases pts with
  | nil => exact absurd rfl hne
  | cons p ps =>
    have hmed : ∃ s, calculate_stats (p :: ps) = some s ∧
        s.median = (pySorted ((p :: ps).map DataPoint.heart_rate)).getD
          ((((p :: ps).map DataPoint.heart_rate)).length / 2) 0 := ⟨_, rfl, rfl⟩
    obtain ⟨s, hs, hm⟩ := hmed
    have hlenmap : (((p :: ps).map DataPoint.heart_rate)).length = (p :: ps).length :=
      List.length_map _ _
    have hsortlen : (pySorted ((p :: ps).map DataPoint.heart_rate)).length
        = (p :: ps).length := by
      rw [pySorted, List.length_insertionSort, hlenmap]
    have hsorted : (pySorted ((p :: ps).map DataPoint.heart_rate)).Sorted (· ≤ ·) :=
      List.sorted_insertionSort _ _
    refine ⟨s, hs, ?_, hsorted, List.perm_insertionSort _ _, ?_⟩
    · rw [hm, hlenmap]
    · intro k hk hk1
      have hkl : k < (pySorted ((p :: ps).map DataPoint.heart_rate)).length := by
        rw [hsortlen, hk]; omega
      have hk1l : k - 1 < (pySorted ((p :: ps).map DataPoint.heart_rate)).length := by
        omega
      have hle : (pySorted ((p :: ps).map DataPoint.heart_rate)).getD (k - 1) 0
          ≤ (pySorted ((p :: ps).map DataPoint.heart_rate)).getD k 0 := by
        rw [List.getD_eq_getElem _ _ hk1l, List.getD_eq_getElem _ _ hkl]
        have h := hsorted.rel_get_of_lt
          (a := ⟨k - 1, hk1l⟩) (b := ⟨k, hkl⟩) (by simp [Fin.mk_lt_mk]; omega)
        simpa [List.get_eq_getElem] using h
      rw [hm, hlenmap, hk, show (2 * k) / 2 = k by omega]
      exact (max_eq_right hle).symm

/-- Witness for C10 on the four values 3, 1, 2, 4: the median is the
upper of the two middle elements of the ascending sort. -/
theorem c10_median_witness :
    pts4 ≠ [] ∧
    (∃ s, calculate_stats pts4 = some s ∧
      s.median = (pySorted (pts4.map DataPoint.heart_rate)).getD (pts4.length / 2) 0 ∧
      (pySorted (pts4.map DataPoint.heart_rate)).Sorted (· ≤ ·) ∧
      (pySorted (pts4.map DataPoint.heart_rate)).Perm (pts4.map DataPoint.heart_rate) ∧
      (∀ k, pts4.length = 2 * k → 1 ≤ k →
        s.median = Max.max ((pySorted (pts4.map DataPoint.heart_rate)).getD (k - 1) 0)
                           ((pySorted (pts4.map DataPoint.heart_rate)).getD k 0))) :=
  ⟨by decide, c10_median pts4 (by decide)⟩

/-- C2: evaluation of the logger at two samples appended on consecutive
local dates, starting from a fresh instance constructed on the first
date.  Two distinct per-day files result, but the second file holds
only its data row and no header row: the date-rotation path of
_ensure_correct_log_file opens the new file without writing the CSV
header, contradicting the claim and the specified file layout. -/
theorem c2_missing_header_eval :
    (addAll [(70, ⟨1000, "2025-01-01"⟩), (72, ⟨90000, "2025-01-02"⟩)]
        (newHeartRateStats 10000 "2025-01-01")).files
      = [(get_log_filename "2025-01-01",
            [Row.header, Row.data 70 ⟨1000, "2025-01-01"⟩]),
         (get_log_filename "2025-01-02",
            [Row.data 72 ⟨90000, "2025-01-02"⟩])] ∧
    Row.data 72 ⟨90000, "2025-01-02"⟩ ≠ Row.header :=
  ⟨rfl, by simp⟩

/-- C3 counterexample: from the Streaming state (ws_connected true,
heartbeat running), a heartbeat send failure leaves ws_connected set —
the session stays in Streaming, it does not transition to
Disconnected. -/
theorem c3_counterexample :
    (heartbeatSendFailure ⟨true, true⟩).ws_connected = true ∧
    heartbeatSendFailure ⟨true, true⟩
      ≠ ({ ws_connected := false, heartbeatRunning := false } : SessionFlags) :=
  ⟨rfl, by decide⟩

/-- C3 amended: a heartbeat send failure terminates only the heartbeat
loop and leaves the connected state unchanged; the session reaches the
disconnected state, with the heartbeat cancelled, only when the inbound
receive loop ends. -/
theorem c3_amended : ∀ s : SessionFlags,
    (heartbeatSendFailure s).heartbeatRunning = false ∧
    (heartbeatSendFailure s).ws_connected = s.ws_connected ∧
    (recvLoopExit s).ws_connected = false ∧
    (recvLoopExit s).heartbeatRunning = false :=
  fun _ => ⟨rfl, rfl, rfl, rfl⟩

/-- C8 counterexample: a well-shaped frame whose payload.hr is the
non-numeric string abc is not dropped — it is forwarded to the consumer
callback (dispatched), though nothing is recorded to the aggregator and
log. -/
theorem c8_counterexample :
    handleFrame ⟨[], []⟩ (.json (.dictWithPayload (.dictWithHr (.strVal "abc"))))
      = ⟨⟨[], [.strVal "abc"]⟩, false, true⟩ ∧
    ([HrField.strVal "abc"] : List HrField) ≠ [] :=
  ⟨rfl, by simp⟩

/-- C8 amended: non-JSON frames are dropped silently; a parsed frame on
which the membership tests run and find no payload.hr (a dict without
the payload key, a string or list without the payload probe, or a
payload dict, string or list without hr) is dropped silently; a parsed
frame whose shape makes a membership test or subscript raise TypeError
(a top-level scalar, a string or list containing the payload probe, a
scalar payload, or a string or list payload containing hr) causes a
printed processing error with nothing recorded or forwarded; a numeric
or numeric-string payload.hr is recorded and forwarded; a non-numeric
string payload.hr is not recorded but is still forwarded to the
consumer callback; a payload.hr of any other type causes a printed
processing error and is not forwarded.  Streaming continues in every
case. -/
theorem c8_frame_handling_amended : ∀ (app : AppState) (n : ℤ) (s : String),
    handleFrame app .nonJson = ⟨app, false, true⟩ ∧
    handleFrame app (.json .scalar) = ⟨app, true, true⟩ ∧
    handleFrame app (.json .strOrListWithPayload) = ⟨app, true, true⟩ ∧
    handleFrame app (.json .strOrListNoPayload) = ⟨app, false, true⟩ ∧
    handleFrame app (.json .dictNoPayload) = ⟨app, false, true⟩ ∧
    handleFrame app (.json (.dictWithPayload .scalar)) = ⟨app, true, true⟩ ∧
    handleFrame app (.json (.dictWithPayload .strOrListWithHr))
      = ⟨app, true, true⟩ ∧
    handleFrame app (.json (.dictWithPayload .strOrListNoHr))
      = ⟨app, false, true⟩ ∧
    handleFrame app (.json (.dictWithPayload .dictNoHr)) = ⟨app, false, true⟩ ∧
    handleFrame app (.json (.dictWithPayload (.dictWithHr (.num n))))
      = ⟨⟨app.recorded ++ [n], app.dispatched ++ [.num n]⟩, false, true⟩ ∧
    handleFrame app (.json (.dictWithPayload (.dictWithHr (.numStr n))))
      = ⟨⟨app.recorded ++ [n], app.dispatched ++ [.numStr n]⟩, false, true⟩ ∧
    handleFrame app (.json (.dictWithPayload (.dictWithHr (.strVal s))))
      = ⟨⟨app.recorded, app.dispatched ++ [.strVal s]⟩, false, true⟩ ∧
    handleFrame app (.json (.dictWithPayload (.dictWithHr .nullVal)))
      = ⟨app, true, true⟩ :=
  fun _ _ _ =>
    ⟨rfl, rfl, rfl, rfl, rfl, rfl, rfl, rfl, rfl, rfl, rfl, rfl, rfl⟩

/-- C9 counterexample: the URL with query uid=abc carries no parameter
named id, yet extraction returns abc rather than the fixed fallback
returned for an id-free URL — the source matches the substring id=
anywhere, including inside the name uid. -/
theorem c9_counterexample :
    extract_channel_id ("https://app.hyperate.io/?uid=abc".toList) = "abc".toList ∧
    extract_channel_id ("https://app.hyperate.io/".toList)
      = "internal-testing".toList ∧
    hasIdParamSpec ("https://app.hyperate.io/?uid=abc".toList) = false ∧
    hasIdParamSpec ("https://app.hyperate.io/".toList) = false ∧
    ("abc".toList : List Char) ≠ "internal-testing".toList := by
  refine ⟨?_, ?_, ?_, ?_, ?_⟩ <;> decide

/-- The startswith test matches the prefix relation. -/
theorem matchesAt_iff : ∀ (sep xs : List Char), matchesAt sep xs = true ↔ sep <+: xs
  | [], xs => by simp [matchesAt]
  | a :: as, [] => by simp [matchesAt]
  | a :: as, b :: bs => by
      simp [matchesAt, List.cons_prefix_cons, matchesAt_iff as bs, Bool.and_eq_true,
        beq_iff_eq]

/-- The substring containment test matches the infix relation. -/
theorem containsSeq_iff (sep : List Char) (hne : sep ≠ []) :
    ∀ xs, containsSeq sep xs = true ↔ sep <:+: xs
  | [] => by
      simp [containsSeq, splitFirstAux, List.infix_nil, hne]
  | x :: xs => by
      by_cases hm : matchesAt sep (x :: xs)
      · simp only [containsSeq, splitFirstAux, if_pos hm, Option.isSome_some, true_iff]
        exact ((matchesAt_iff sep (x :: xs)).mp hm).isInfix
      · have ih := containsSeq_iff sep hne xs
        simp only [containsSeq, splitFirstAux, if_neg hm, Option.isSome_map'] at *
        rw [ih, List.infix_cons_iff]
        have hnp : ¬ sep <+: (x :: xs) := fun hp =>
          hm ((matchesAt_iff sep (x :: xs)).mpr hp)
        tauto

/-- Conditional truncation at a single character equals takeWhile. -/
theorem pyTruncAt_eq_takeWhile (c : Char) :
    ∀ xs, pyTruncAt [c] xs = xs.takeWhile (fun a => a != c)
  | [] => by simp [pyTruncAt, containsSeq, splitFirstAux, List.takeWhile]
  | x :: xs => by
      have ih := pyTruncAt_eq_takeWhile c xs
      by_cases hx : c = x
      · subst hx
        simp [pyTruncAt, containsSeq, splitFirstAux, pySplitHead, matchesAt,
          List.takeWhile]
      · have hm : matchesAt [c] (x :: xs) = false := by
          simp [matchesAt, hx]
        have hb : (x != c) = true := bne_iff_ne.mpr (fun hh => hx hh.symm)
        cases hs : splitFirstAux [c] xs with
        | none =>
            have hcontains : containsSeq [c] (x :: xs) = false := by
              simp [containsSeq, splitFirstAux, hm, hs]
            have hcontains2 : containsSeq [c] xs = false := by
              simp [containsSeq, hs]
            have hxs : xs.takeWhile (fun a => a != c) = xs := by
              rw [← ih]; simp [pyTruncAt, hcontains2]
            simp [pyTruncAt, hcontains, List.takeWhile, hb, hxs]
        | some p =>
            have hcontains : containsSeq [c] (x :: xs) = true := by
              simp [containsSeq, splitFirstAux, hm, hs]
            have hcontains2 : containsSeq [c] xs = true := by
              simp [containsSeq, hs]
            have hxs : xs.takeWhile (fun a => a != c) = p.1 := by
              rw [← ih]; simp [pyTruncAt, hcontains2, pySplitHead, hs]
            simp [pyTruncAt, hcontains, pySplitHead, splitFirstAux, hm, hs,
              List.takeWhile, hb, hxs]

/-- C9 amended: for every URL, the extracted channel identifier is the
text between the first occurrence of the substring id= and the next
occurrence, truncated at the first ampersand and then at the first hash
sign, when id= occurs anywhere in the URL, and the fixed non-empty
fallback identifier otherwise; extraction is total, so the join topic is
always formed. -/
theorem c9_channel_id_amended :
    ∀ url, extract_channel_id url = specAmendedChannelId url := by
  intro url
  unfold extract_channel_id specAmendedChannelId
  have hne : idMarker ≠ [] := by decide
  by_cases h : containsSeq idMarker url
  · rw [if_pos h, if_pos ((containsSeq_iff idMarker hne url).mp h),
      pyTruncAt_eq_takeWhile, pyTruncAt_eq_takeWhile]
  · rw [if_neg h, if_neg (fun hi => h ((containsSeq_iff idMarker hne url).mpr hi))]

end HyperateOverlay
